import Mathlib

/-!
Verification of the rpscrape Supabase upload pipeline
(`upload_to_supabase.py`, `batch_upload_to_supabase.py`,
`upload_racecards_to_supabase.py`).

The Python sources are shallowly embedded below: Python scalar values become
the inductive `Value`, Python floats become `PyFloat` (finite values modelled
as exact rationals; binary rounding of decimal literals is not modelled, which
is exact for every literal appearing in a theorem here), exceptions become an
explicit `Except PyExc` result, and the external Supabase client becomes an
oracle `Nat -> StoreResponse` giving the response for each submitted batch.
-/

deriving instance DecidableEq for Except

/-- Python exception classes that the embedded code can raise or catch. -/
inductive PyExc
  | valueError
  | typeError
  | overflowError
  deriving DecidableEq, Repr

/-- A Python float: a finite value (modelled as an exact rational), nan,
or a signed infinity. -/
inductive PyFloat
  | finite (q : ℚ)
  | nan
  | inf
  | ninf
  deriving DecidableEq, Repr

/-- A Python scalar value as it can appear in a parsed CSV row dictionary:
`None`, a string, an int, or a float.  (Container values such as lists never
reach the coercion helpers along the embedded pipeline paths and are not
modelled.) -/
inductive Value
  | vnone
  | vstr (s : String)
  | vint (n : ℤ)
  | vfloat (f : PyFloat)
  deriving DecidableEq, Repr

/-- A typed cell value after transform: int, float or string column. -/
inductive TypedVal
  | ti (n : ℤ)
  | tf (x : PyFloat)
  | ts (t : String)
  deriving DecidableEq, Repr

/- ### Model of the Python numeric string parsers -/

/-- The ASCII whitespace characters stripped by Python `str.strip()` and by
`float(str)`/`int(str)` (unicode whitespace is not modelled). -/
def isPySpace (c : Char) : Bool :=
  c == ' ' || c == '\t' || c == '\n' || c == '\r' || c == '\x0b' || c == '\x0c'

/-- Strip leading and trailing whitespace from a character list. -/
def stripChars (cs : List Char) : List Char :=
  ((cs.dropWhile isPySpace).reverse.dropWhile isPySpace).reverse

/-- Model of Python `str.strip()` with no argument. -/
def pyStrip (s : String) : String :=
  String.mk (stripChars s.toList)

/-- Greedily consume digits and underscores (the character class that can make
up a CPython digit run with PEP 515 underscores). -/
def digitRun (cs : List Char) : List Char × List Char :=
  (cs.takeWhile fun c => c.isDigit || c == '_',
   cs.dropWhile fun c => c.isDigit || c == '_')

/-- Tail of a valid digit run: a sequence of digits in which single
underscores may stand strictly between digits. -/
def goodTail : List Char → Bool
  | [] => true
  | '_' :: [] => false
  | '_' :: c :: rest => c.isDigit && goodTail rest
  | c :: rest => c.isDigit && goodTail rest

/-- A valid CPython digit run: nonempty, starts with a digit, underscores only
between digits. -/
def goodRun (cs : List Char) : Bool :=
  match cs with
  | [] => false
  | c :: rest => c.isDigit && goodTail rest

/-- Numeric value of a digit run, ignoring underscores. -/
def natOfDigits (cs : List Char) : ℕ :=
  (cs.filter fun c => c.isDigit).foldl (fun a c => a * 10 + (c.toNat - '0'.toNat)) 0

/-- Number of actual digits in a run (underscores excluded). -/
def digitCount (cs : List Char) : ℕ :=
  (cs.filter fun c => c.isDigit).length

/-- The exact value of a decimal literal with integer-part digits value `a`,
fraction digits value `b` over `k` fraction digits, and a signed decimal
exponent. Built with `Rat.divInt` over integer arithmetic only, so that it
evaluates inside the kernel. -/
def decLitValue (a b k : ℕ) (eneg : Bool) (e : ℕ) : ℚ :=
  let num : ℤ := ((a * 10 ^ k + b : ℕ) : ℤ)
  if eneg then Rat.divInt num ((10 : ℤ) ^ (k + e))
  else Rat.divInt (num * (10 : ℤ) ^ e) ((10 : ℤ) ^ k)

/-- Parse the optional exponent part of a float literal and combine it with
the mantissa digits; the input must be fully consumed. Input is already
lowercased. `a`, `b`, `k` are as in `decLitValue`. -/
def parseExpPart (cs : List Char) (a b k : ℕ) : Option ℚ :=
  match cs with
  | [] => some (decLitValue a b k false 0)
  | 'e' :: r =>
    let (neg, r') := match r with
      | '+' :: t => (false, t)
      | '-' :: t => (true, t)
      | t => (false, t)
    let (ds, rest) := digitRun r'
    if goodRun ds && rest.isEmpty then
      some (decLitValue a b k neg (natOfDigits ds))
    else none
  | _ => none

/-- Parse the unsigned decimal part of a CPython float literal
(`digitpart ["." [digitpart]] [exp]` or `"." digitpart [exp]`).
Input is already lowercased and whitespace-stripped. -/
def parseDecimalFloat (cs : List Char) : Option ℚ :=
  let (ip, r1) := digitRun cs
  if !ip.isEmpty && !goodRun ip then none
  else
    match r1 with
    | '.' :: r =>
      let (fp, r2) := digitRun r
      if !fp.isEmpty && !goodRun fp then none
      else if ip.isEmpty && fp.isEmpty then none
      else parseExpPart r2 (natOfDigits ip) (natOfDigits fp) (digitCount fp)
    | _ =>
      if ip.isEmpty then none
      else parseExpPart r1 (natOfDigits ip) 0 0

/-- The IEEE-754 double overflow threshold `2^1024 - 2^970` (written as a
literal so it evaluates inside the kernel; `dblOvfNum_eq` checks the value):
a real value whose magnitude reaches it rounds (round-to-nearest-even) to
infinity; the largest finite double lies strictly below it. -/
def dblOvfNum : ℤ := 179769313486231580793728971405303415079934132710037826936173778980444968292764750946649017977587207096330286416692887910946555547851940402630657488671505820681908902000708383676273854845817711531764475730270069855571366959622842914819860834936475292719074168444365510704342711559699508093042880177904174497792

/-- Whether a nonnegative rational rounds to an IEEE double infinity. -/
def overflowsDouble (q : ℚ) : Bool :=
  dblOvfNum * (q.den : ℤ) ≤ (q.num.natAbs : ℤ)

/-- Model of CPython `float(str)`: strip whitespace, optional sign, then
`inf`/`infinity`/`nan` (case-insensitive) or a decimal literal; a finite
literal whose value reaches the double overflow threshold (e.g. `1e400`)
yields a signed infinity, as C `strtod` does.  `none` models a raised
`ValueError`.  (Rounding of in-range literals to the nearest double is not
modelled — finite values stay exact rationals.) -/
def parsePyFloat (s : String) : Option PyFloat :=
  let cs := (stripChars s.toList).map Char.toLower
  let (neg, rest) := match cs with
    | '+' :: r => (false, r)
    | '-' :: r => (true, r)
    | r => (false, r)
  if rest = "inf".toList || rest = "infinity".toList then
    some (if neg then PyFloat.ninf else PyFloat.inf)
  else if rest = "nan".toList then
    some PyFloat.nan
  else
    match parseDecimalFloat rest with
    | some q =>
      if overflowsDouble q then some (if neg then PyFloat.ninf else PyFloat.inf)
      else some (PyFloat.finite (if neg then Rat.neg q else q))
    | none => none

/-- Model of CPython `int(str)`: strip whitespace, optional sign, a digit run;
no decimal point or exponent.  `none` models a raised `ValueError`. -/
def parsePyInt (s : String) : Option ℤ :=
  let cs := stripChars s.toList
  let (neg, rest) := match cs with
    | '+' :: r => (false, r)
    | '-' :: r => (true, r)
    | r => (false, r)
  let (ds, r1) := digitRun rest
  if goodRun ds && r1.isEmpty then
    some (if neg then -(natOfDigits ds : ℤ) else (natOfDigits ds : ℤ))
  else none

/-- Truncation toward zero, the behaviour of Python `int()` on a finite
float: `Int.tdiv` of the reduced numerator by the (positive) denominator. -/
def truncRat (q : ℚ) : ℤ :=
  q.num.tdiv (q.den : ℤ)

/- ### Model of the Python scalar builtins used by the coercers -/

/-- The guard `pd.isna(value) or value == '' or value is None` used by the
three `safe_convert_*` helpers of the two CSV scripts, evaluated on a scalar:
`None` and float nan are na; otherwise only the empty string compares equal
to `''`. -/
def isNullLikePd : Value → Bool
  | Value.vnone => true
  | Value.vstr s => s == ""
  | Value.vint _ => false
  | Value.vfloat PyFloat.nan => true
  | Value.vfloat _ => false

/-- The guard `value is None or value == ''` used by `safe_int`/`safe_float`
in `upload_racecards_to_supabase.py`. -/
def isNullLikeRC : Value → Bool
  | Value.vnone => true
  | Value.vstr s => s == ""
  | Value.vint _ => false
  | Value.vfloat _ => false

/-- Python `float(value)` on a scalar: strings are parsed (`ValueError` on
failure), ints widen — raising `OverflowError` when too large to convert to
a double — floats pass through, `None` raises `TypeError`. -/
def pyFloatOfValue : Value → Except PyExc PyFloat
  | Value.vnone => .error .typeError
  | Value.vstr s =>
    match parsePyFloat s with
    | some f => .ok f
    | none => .error .valueError
  | Value.vint n =>
    if overflowsDouble (n : ℚ) then .error .overflowError
    else .ok (PyFloat.finite (n : ℚ))
  | Value.vfloat f => .ok f

/-- Python `int(f)` on a float: truncates a finite value toward zero, raises
`ValueError` on nan and `OverflowError` on an infinity. -/
def pyIntOfFloat : PyFloat → Except PyExc ℤ
  | PyFloat.finite q => .ok (truncRat q)
  | PyFloat.nan => .error .valueError
  | PyFloat.inf => .error .overflowError
  | PyFloat.ninf => .error .overflowError

/-- Python `int(value)` on a scalar: strings are parsed in base 10
(`ValueError` on failure, no decimal point accepted), ints pass through,
floats truncate via `pyIntOfFloat`, `None` raises `TypeError`. -/
def pyIntOfValue : Value → Except PyExc ℤ
  | Value.vnone => .error .typeError
  | Value.vstr s =>
    match parsePyInt s with
    | some n => .ok n
    | none => .error .valueError
  | Value.vint n => .ok n
  | Value.vfloat f => pyIntOfFloat f

/-- Python `repr`/`str` of a float.  Integral finite values print as `n.0`;
the repr of a non-integral finite float (shortest round-trip decimal) is not
modelled precisely and falls back to a fraction rendering — no embedded
pipeline path applies `str` to a non-integral float. -/
def floatRepr : PyFloat → String
  | PyFloat.nan => "nan"
  | PyFloat.inf => "inf"
  | PyFloat.ninf => "-inf"
  | PyFloat.finite q =>
    if q.den = 1 then toString q.num ++ ".0"
    else toString q.num ++ "/" ++ toString q.den

/-- Python `str(value)` on a scalar. -/
def pyStrOfValue : Value → String
  | Value.vnone => "None"
  | Value.vstr s => s
  | Value.vint n => toString n
  | Value.vfloat f => floatRepr f

/- ### The coercion helpers (FieldCoercion) -/

/-- `safe_convert_to_int` of `upload_to_supabase.py` (lines 26-33) and
`batch_upload_to_supabase.py` (lines 34-41):
null-like guard, then `int(float(value))` with
`except (ValueError, TypeError): return None`.
An `OverflowError` (from `int` of an infinite float) is not caught and
propagates. -/
def safe_convert_to_int (value : Value) : Except PyExc (Option ℤ) :=
  if isNullLikePd value then .ok none
  else
    match pyFloatOfValue value with
    | .error .valueError => .ok none
    | .error .typeError => .ok none
    | .error e => .error e
    | .ok f =>
      match pyIntOfFloat f with
      | .ok n => .ok (some n)
      | .error .valueError => .ok none
      | .error .typeError => .ok none
      | .error e => .error e

/-- `safe_convert_to_float` of the two CSV scripts: null-like guard, then
`float(value)` with `except (ValueError, TypeError): return None`. -/
def safe_convert_to_float (value : Value) : Except PyExc (Option PyFloat) :=
  if isNullLikePd value then .ok none
  else
    match pyFloatOfValue value with
    | .ok f => .ok (some f)
    | .error .valueError => .ok none
    | .error .typeError => .ok none
    | .error e => .error e

/-- `safe_convert_to_str` of the two CSV scripts: null-like guard, then
`str(value).strip()`. -/
def safe_convert_to_str (value : Value) : Except PyExc (Option String) :=
  if isNullLikePd value then .ok none
  else .ok (some (pyStrip (pyStrOfValue value)))

/-- `safe_int` of `upload_racecards_to_supabase.py` (lines 40-47):
`value is None or value == ''` guard, then `int(value)` directly (NOT
`int(float(value))`) with `except (ValueError, TypeError): return None`. -/
def safe_int (value : Value) : Except PyExc (Option ℤ) :=
  if isNullLikeRC value then .ok none
  else
    match pyIntOfValue value with
    | .ok n => .ok (some n)
    | .error .valueError => .ok none
    | .error .typeError => .ok none
    | .error e => .error e

/-- `safe_float` of `upload_racecards_to_supabase.py` (lines 49-56). -/
def safe_float (value : Value) : Except PyExc (Option PyFloat) :=
  if isNullLikeRC value then .ok none
  else
    match pyFloatOfValue value with
    | .ok f => .ok (some f)
    | .error .valueError => .ok none
    | .error .typeError => .ok none
    | .error e => .error e


/- ### RecordRepair: `parse_csv_file` row repair
(`upload_to_supabase.py` lines 80-109, `batch_upload_to_supabase.py`
lines 88-117) -/

/-- The fixed 39-column expected schema of the historical-results CSV. -/
def expected_columns : List String :=
  ["date", "region", "course", "off", "race_name", "type", "class", "pattern",
   "rating_band", "age_band", "sex_rest", "dist", "dist_f", "dist_m", "going",
   "ran", "num", "pos", "draw", "ovr_btn", "btn", "horse", "age", "sex", "lbs",
   "hg", "time", "secs", "dec", "jockey", "trainer", "prize", "or", "rpr",
   "sire", "dam", "damsire", "owner", "comment"]

/-- The column-count repair of `parse_csv_file`: a row with fewer fields than
`expected_columns` is right-padded with empty strings (the `while` loop);
a row with more fields has everything from index 38 onward rejoined with the
delimiter `,` into the final comment field. -/
def repair_row (row : List String) : List String :=
  if row.length ≠ expected_columns.length then
    let padded := row ++ List.replicate (expected_columns.length - row.length) ""
    if padded.length > expected_columns.length then
      padded.take 38 ++ [String.intercalate "," (padded.drop 38)]
    else padded
  else row

/-- The positional mapping `row_dict[col] = row[i] if i < len(row) else ''`
building one RawRecord from a (repaired) field list. -/
def row_dict (row : List String) : List (String × String) :=
  expected_columns.enum.map fun p => (p.2, row.getD p.1 "")

/- ### RecordTransform: `transform_row_for_supabase`
(`upload_to_supabase.py` lines 118-164, `batch_upload_to_supabase.py`
lines 126-172) -/

/-- The declared coercion of a destination column: string, int or float. -/
inductive CKind
  | cstr
  | cint
  | cfloat
  deriving DecidableEq, Repr

/-- The 39 entries of the `transformed` dict literal of
`transform_row_for_supabase`, in source order: destination column name,
source key passed to `row.get`, and which `safe_convert_*` helper is applied.
The single renaming is `or_rating := safe_convert_to_int(row.get("or"))`. -/
def column_spec : List (String × String × CKind) :=
  [("date", "date", CKind.cstr), ("region", "region", CKind.cstr),
   ("course", "course", CKind.cstr), ("off", "off", CKind.cstr),
   ("race_name", "race_name", CKind.cstr), ("type", "type", CKind.cstr),
   ("class", "class", CKind.cstr), ("pattern", "pattern", CKind.cstr),
   ("rating_band", "rating_band", CKind.cstr), ("age_band", "age_band", CKind.cstr),
   ("sex_rest", "sex_rest", CKind.cstr), ("dist", "dist", CKind.cstr),
   ("dist_f", "dist_f", CKind.cstr), ("dist_m", "dist_m", CKind.cint),
   ("going", "going", CKind.cstr), ("ran", "ran", CKind.cint),
   ("num", "num", CKind.cint), ("pos", "pos", CKind.cint),
   ("draw", "draw", CKind.cint), ("ovr_btn", "ovr_btn", CKind.cfloat),
   ("btn", "btn", CKind.cfloat), ("horse", "horse", CKind.cstr),
   ("age", "age", CKind.cint), ("sex", "sex", CKind.cstr),
   ("lbs", "lbs", CKind.cint), ("hg", "hg", CKind.cstr),
   ("time", "time", CKind.cstr), ("secs", "secs", CKind.cfloat),
   ("dec", "dec", CKind.cfloat), ("jockey", "jockey", CKind.cstr),
   ("trainer", "trainer", CKind.cstr), ("prize", "prize", CKind.cfloat),
   ("or_rating", "or", CKind.cint), ("rpr", "rpr", CKind.cint),
   ("sire", "sire", CKind.cstr), ("dam", "dam", CKind.cstr),
   ("damsire", "damsire", CKind.cstr), ("owner", "owner", CKind.cstr),
   ("comment", "comment", CKind.cstr)]

/-- Apply the coercion helper declared for a column kind. -/
def convertField : CKind → Value → Except PyExc (Option TypedVal)
  | CKind.cstr, v => (safe_convert_to_str v).map fun o => o.map TypedVal.ts
  | CKind.cint, v => (safe_convert_to_int v).map fun o => o.map TypedVal.ti
  | CKind.cfloat, v => (safe_convert_to_float v).map fun o => o.map TypedVal.tf

/-- Python `row.get(key)`: the stored value, or `None` when the key is
absent. -/
def pyGet (row : List (String × Value)) (k : String) : Value :=
  match row.find? fun p => p.1 == k with
  | some p => p.2
  | none => Value.vnone

/-- Evaluate the dict entries of a column specification in order, stopping
at the first raised exception. -/
def buildRowCells (spec : List (String × String × CKind))
    (row : List (String × Value)) :
    Except PyExc (List (String × Option TypedVal)) :=
  match spec with
  | [] => Except.ok []
  | e :: es => do
    let v ← convertField e.2.2 (pyGet row e.2.1)
    let rest ← buildRowCells es row
    Except.ok ((e.1, v) :: rest)

/-- `transform_row_for_supabase`: builds the 39-entry typed dict in source
order; an uncaught exception from a coercion helper propagates out of the
whole transform (the dict literal evaluates its values in order). -/
def transform_row_for_supabase (row : List (String × Value)) :
    Except PyExc (List (String × Option TypedVal)) :=
  buildRowCells column_spec row

/- ### BatchUploader: `upload_to_supabase`
(`upload_to_supabase.py` lines 166-227, `batch_upload_to_supabase.py`
lines 174-231; `upsert` vs `insert` mode does not change the accounting) -/

/-- The external store response for one submitted batch: a raised exception,
or a returned `result.data` list of length `n` (`n = 0` is the falsy
`no data returned` case). -/
inductive StoreResponse
  | err
  | data (n : ℕ)
  deriving DecidableEq, Repr

/-- A parsed CSV row dictionary. -/
abbrev CsvRow := List (String × Value)

/-- Python `range(0, stop, step)` for `step > 0`. -/
def pyRange (stop step : ℕ) : List ℕ :=
  (List.range ((stop + step - 1) / step)).map (· * step)

/-- One iteration of the batch loop of `upload_to_supabase`, accumulating
`(successful_uploads, failed_uploads)`:
rows whose transform raises are counted failed; an empty transformed batch is
skipped without submission; a submission exception or an empty `result.data`
counts the whole original batch failed; otherwise `len(result.data)` is added
to the successes.  `resp` is indexed by `i / batch_size` (the code logs
`batch_num = i // batch_size + 1`). -/
def uploadStep (resp : ℕ → StoreResponse) (batch_size : ℕ) (rows : List CsvRow)
    (acc : ℕ × ℕ) (i : ℕ) : ℕ × ℕ :=
  let batch := (rows.drop i).take batch_size
  let results := batch.map transform_row_for_supabase
  let failed_t := (results.filter fun r => (Except.toOption r).isNone).length
  let transformed := results.filterMap Except.toOption
  let acc1 := (acc.1, acc.2 + failed_t)
  if transformed.isEmpty then acc1
  else
    match resp (i / batch_size) with
    | StoreResponse.err => (acc1.1, acc1.2 + batch.length)
    | StoreResponse.data n =>
      if n == 0 then (acc1.1, acc1.2 + batch.length) else (acc1.1 + n, acc1.2)

/-- The final `(successful_uploads, failed_uploads)` counters of
`upload_to_supabase` after the loop `for i in range(0, total_rows,
batch_size)`. -/
def uploadCounts (rows : List CsvRow) (batch_size : ℕ)
    (resp : ℕ → StoreResponse) : ℕ × ℕ :=
  (pyRange rows.length batch_size).foldl (uploadStep resp batch_size rows) (0, 0)

/-- The consecutive slices `rows[i:i+batch_size]` submitted by the loop. -/
def pyBatches (rows : List CsvRow) (batch_size : ℕ) : List (List CsvRow) :=
  (pyRange rows.length batch_size).map fun i => (rows.drop i).take batch_size

/-- Return value of `upload_to_supabase`: `failed_uploads == 0`, or `False`
when initializing the client raised (`client_ok = false`). -/
def upload_to_supabase (rows : List CsvRow) (batch_size : ℕ)
    (resp : ℕ → StoreResponse) (client_ok : Bool) : Bool :=
  if client_ok then (uploadCounts rows batch_size resp).2 == 0 else false

/-- The `(successful_uploads, failed_uploads)` counters of `upload_to_supabase`
in `upload_racecards_to_supabase.py` (lines 172-207): the already-flattened
rows are sliced into batches of 100 with no per-row transform; on a non-empty
`response.data` it adds `len(batch)` — the full submitted count, NOT
`len(response.data)` — to the successes; an exception or an empty
`response.data` adds `len(batch)` to the failures. -/
def racecards_upload_counts {α : Type} (data : List α)
    (resp : ℕ → StoreResponse) : ℕ × ℕ :=
  (pyRange data.length 100).foldl
    (fun acc i =>
      let batch := (data.drop i).take 100
      match resp (i / 100) with
      | StoreResponse.err => (acc.1, acc.2 + batch.length)
      | StoreResponse.data n =>
        if n == 0 then (acc.1, acc.2 + batch.length)
        else (acc.1 + batch.length, acc.2))
    (0, 0)

/- ### FileLifecycleCoordinator -/

/-- `process_single_file` of `batch_upload_to_supabase.py` (lines 264-290):
returns `False` when `parse_csv_file` raised, when it produced no rows, or
when `upload_to_supabase` returned `False`; returns `True` only on a fully
successful upload.  `main` moves the file to the processed directory exactly
when this returns `True`. -/
def process_single_file (parse_result : Except Unit (List CsvRow))
    (resp : ℕ → StoreResponse) (client_ok : Bool) : Bool :=
  match parse_result with
  | Except.error _ => false
  | Except.ok rows =>
    if rows.isEmpty then false
    else upload_to_supabase rows 100 resp client_ok

/-- The per-file body of `process_all_csv_files` in `upload_to_supabase.py`
(lines 249-285): the same parse / empty-check / upload sequence; the file is
moved to the processed folder exactly when this returns `True`. -/
def process_one_file_upload_script (parse_result : Except Unit (List CsvRow))
    (resp : ℕ → StoreResponse) (client_ok : Bool) : Bool :=
  match parse_result with
  | Except.error _ => false
  | Except.ok rows =>
    if rows.isEmpty then false
    else upload_to_supabase rows 100 resp client_ok

/- ### Processed-folder destination names -/

/-- Index of the last `.` in a file name, if any. -/
def lastDotIdx (cs : List Char) : Option ℕ :=
  ((cs.enum.filter fun p => p.2 == '.').map Prod.fst).getLast?

/-- CPython `PurePath.suffix`: `name[i:]` for the last dot index `i` when
`0 < i < len(name) - 1`, else the empty string. -/
def path_suffix (name : String) : String :=
  let cs := name.toList
  match lastDotIdx cs with
  | some i => if 0 < i && i + 1 < cs.length then String.mk (cs.drop i) else ""
  | none => ""

/-- CPython `PurePath.stem`: `name[:i]` under the same condition, else the
whole name. -/
def path_stem (name : String) : String :=
  let cs := name.toList
  match lastDotIdx cs with
  | some i => if 0 < i && i + 1 < cs.length then String.mk (cs.take i) else name
  | none => name

/-- Destination file name chosen by `move_file_to_processed` of
`batch_upload_to_supabase.py` (lines 239-262): if the name already exists in
the processed directory, `{stem}_{timestamp}{suffix}` is used instead. -/
def move_file_to_processed_dest (processed : List String)
    (name timestamp : String) : String :=
  if name ∈ processed then
    path_stem name ++ "_" ++ timestamp ++ path_suffix name
  else name

/-- Destination file name chosen by `process_all_csv_files` of
`upload_to_supabase.py` (lines 272-275): always
`os.path.join(processed_folder, filename)` with no existence check before
`shutil.move`. -/
def process_all_dest (name : String) : String := name

/- ### Process exit codes -/

/-- Exit code of `main` in `batch_upload_to_supabase.py` (lines 292-341).
Each discovered file contributes `(process_ok, move_ok)`: whether
`process_single_file` returned `True` and whether the subsequent
`move_file_to_processed` returned `True`.  With no files, `main` returns
early (process exit 0).  Otherwise `sys.exit(0)` iff `failed_files == 0`. -/
def batch_main_exit (file_results : List (Bool × Bool)) : ℕ :=
  if file_results.isEmpty then 0
  else if (file_results.filter fun r => !(r.1 && r.2)).length == 0 then 0 else 1

/-- Return value of `process_all_csv_files` in `upload_to_supabase.py`
(lines 229-293) abstracted over the per-file outcomes (`True` = parsed,
uploaded and moved without failure): `total_failed == 0`, and `True` when no
CSV files were found. -/
def process_all_csv_files_result (per_file : List Bool) : Bool :=
  if per_file.isEmpty then true
  else (per_file.filter fun b => !b).length == 0

/-- Exit code of `main` in `upload_to_supabase.py` (lines 295-319):
`sys.exit(0)` iff `process_all_csv_files` returned `True`; a fatal exception
exits 1. -/
def upload_main_exit (per_file : List Bool) (fatal : Bool) : ℕ :=
  if fatal then 1
  else if process_all_csv_files_result per_file then 0 else 1

/-- Exit code of `main` in `upload_racecards_to_supabase.py` (lines 239-294)
for a run that reaches the summary: each processed file contributes its
`(successful, failed)` counts; both branches of the final
`if total_failed == 0` only log, and `main` returns without `sys.exit`, so
the interpreter exits 0 regardless of failed uploads. -/
def racecards_main_exit (outcomes : List (ℕ × ℕ)) : ℕ :=
  let total_failed := (outcomes.map Prod.snd).sum
  if total_failed == 0 then 0 else 0

/- ### Nested-JSON flattening (`upload_racecards_to_supabase.py`) -/

/-- A JSON value as produced by `json.load`. -/
inductive JValue
  | jnull
  | jbool (b : Bool)
  | jnum (q : ℚ)
  | jstr (s : String)
  | jarr (xs : List JValue)
  | jobj (fs : List (String × JValue))

/-- One hexadecimal digit. -/
def hexDigit (n : ℕ) : Char :=
  if n < 10 then Char.ofNat ('0'.toNat + n) else Char.ofNat ('a'.toNat + (n - 10))

/-- Four-digit lowercase hex, as in a `\uXXXX` escape. -/
def hex4 (n : ℕ) : String :=
  String.mk [hexDigit (n / 4096 % 16), hexDigit (n / 256 % 16),
             hexDigit (n / 16 % 16), hexDigit (n % 16)]

/-- `json.dumps` escaping of one character (default `ensure_ascii=True`;
code points above the BMP, which Python writes as surrogate pairs, are not
modelled). -/
def escChar (c : Char) : String :=
  if c == '"' then "\\\""
  else if c == '\\' then "\\\\"
  else if c == '\n' then "\\n"
  else if c == '\t' then "\\t"
  else if c == '\r' then "\\r"
  else if c == '\x08' then "\\b"
  else if c == '\x0c' then "\\f"
  else if c.toNat < 32 || c.toNat > 126 then "\\u" ++ hex4 c.toNat
  else String.mk [c]

/-- `json.dumps` escaping of a string body. -/
def jsonEscape (s : String) : String :=
  s.toList.foldl (fun acc c => acc ++ escChar c) ""

/-- `json.dumps` rendering of a number.  Integral values print exactly; the
shortest-round-trip repr of a non-integral float is not modelled precisely
(no theorem below serializes one). -/
def jnumRepr (q : ℚ) : String :=
  if q.den = 1 then toString q.num
  else toString q.num ++ "/" ++ toString q.den

mutual

/-- Model of `json.dumps` with its default separators `", "` and `": "`. -/
def jsonDumps : JValue → String
  | JValue.jnull => "null"
  | JValue.jbool true => "true"
  | JValue.jbool false => "false"
  | JValue.jnum q => jnumRepr q
  | JValue.jstr s => "\"" ++ jsonEscape s ++ "\""
  | JValue.jarr xs => "[" ++ String.intercalate ", " (jsonDumpsList xs) ++ "]"
  | JValue.jobj fs => "\x7b" ++ String.intercalate ", " (jsonDumpsObj fs) ++ "\x7d"

def jsonDumpsList : List JValue → List String
  | [] => []
  | x :: xs => jsonDumps x :: jsonDumpsList xs

def jsonDumpsObj : List (String × JValue) → List String
  | [] => []
  | f :: fs => ("\"" ++ jsonEscape f.1 ++ "\": " ++ jsonDumps f.2) :: jsonDumpsObj fs

end

/-- Python truthiness of a parsed JSON value: `None`, `False`, `0`, `''`,
`[]` and `` \x7b\x7d `` are falsy. -/
def jTruthy : JValue → Bool
  | JValue.jnull => false
  | JValue.jbool b => b
  | JValue.jnum q => q.num != 0
  | JValue.jstr s => s != ""
  | JValue.jarr xs => !xs.isEmpty
  | JValue.jobj fs => !fs.isEmpty

/-- Python `dict.get` on a parsed JSON object. -/
def dictGet (d : List (String × JValue)) (k : String) : Option JValue :=
  (d.find? fun p => p.1 == k).map Prod.snd

/-- The JSON-blob cell builder of `flatten_race_data`
(`upload_racecards_to_supabase.py` lines 96-166): each blob column is
computed as `json.dumps(d.get(k)) if d.get(k) else None`. -/
def blobCell (d : List (String × JValue)) (k : String) : Option String :=
  match dictGet d k with
  | none => none
  | some v => if jTruthy v then some (jsonDumps v) else none

/-- The columns of `flatten_race_data` built with the
`json.dumps(...) if ... else None` pattern: `rail_movements` at race level
and the seven runner-level blob fields. -/
def blob_json_fields : List String :=
  ["rail_movements", "trainer_14_days", "prev_trainers", "prev_owners",
   "medical", "quotes", "stable_tour", "stats"]

/- ### Auxiliary definitions used by the theorems -/

/-- A scalar value on which `float(value)` and `int(float(value))` cannot
raise `OverflowError`: anything except a float infinity, a string that
`float()` parses to an infinity (including overflowing numerals such as
`1e400`), or an int too large to convert to a double.  Every value the CSV
parser can produce except such numerals satisfies this. -/
def nonInfValue : Value → Bool
  | Value.vnone => true
  | Value.vstr s =>
    match parsePyFloat s with
    | some PyFloat.inf => false
    | some PyFloat.ninf => false
    | _ => true
  | Value.vint n => !overflowsDouble (n : ℚ)
  | Value.vfloat PyFloat.inf => false
  | Value.vfloat PyFloat.ninf => false
  | Value.vfloat _ => true

/-- Store oracle for the 250-row scenario: batch 1 accepts all 100 rows,
batch 2 raises, batch 3 accepts all 50 rows. -/
def respC8 : ℕ → StoreResponse := fun i =>
  if i = 0 then StoreResponse.data 100
  else if i = 1 then StoreResponse.err
  else StoreResponse.data 50

/- ### Helper lemmas -/

lemma dblOvfNum_eq : dblOvfNum = 2 ^ 1024 - 2 ^ 970 := by norm_num [dblOvfNum]

lemma expected_columns_length : expected_columns.length = 39 := by decide

lemma row_dict_fst (row : List String) :
    (row_dict row).map Prod.fst = expected_columns := by
  unfold row_dict
  rw [List.map_map]
  have h : (Prod.fst ∘ fun p : ℕ × String => (p.2, row.getD p.1 "")) = Prod.snd := by
    funext p; rfl
  rw [h, List.enum_map_snd]

lemma row_dict_length (row : List String) : (row_dict row).length = 39 := by
  unfold row_dict
  rw [List.length_map, List.enum_length]
  exact expected_columns_length

lemma repair_row_of_len_eq (row : List String) (h : row.length = 39) :
    repair_row row = row := by
  unfold repair_row
  simp only [expected_columns_length, h]
  simp

lemma repair_row_of_len_lt (row : List String) (h : row.length < 39) :
    repair_row row = row ++ List.replicate (39 - row.length) "" := by
  unfold repair_row
  simp only [expected_columns_length]
  rw [if_pos (by omega)]
  have hlen : (row ++ List.replicate (39 - row.length) "").length = 39 := by
    simp [List.length_append, List.length_replicate]; omega
  rw [if_neg (by rw [hlen]; omega)]

lemma repair_row_of_len_gt (row : List String) (h : 39 < row.length) :
    repair_row row = row.take 38 ++ [String.intercalate "," (row.drop 38)] := by
  unfold repair_row
  simp only [expected_columns_length]
  rw [if_pos (by omega)]
  have h0 : 39 - row.length = 0 := by omega
  simp only [h0, List.replicate_zero, List.append_nil]
  rw [if_pos (by omega)]

lemma repair_row_length (row : List String) : (repair_row row).length = 39 := by
  rcases lt_trichotomy row.length 39 with h | h | h
  · rw [repair_row_of_len_lt row h]
    simp [List.length_append, List.length_replicate]
    omega
  · rw [repair_row_of_len_eq row h]; exact h
  · rw [repair_row_of_len_gt row h]
    simp [List.length_append, List.length_take]
    omega

/- ### Claim theorems -/

/-- C4 (counterexample): the racecards coercer `safe_int` does NOT satisfy
the reference equation `toInt("7.0") == 7`: it calls `int(value)` directly,
which raises `ValueError` on `"7.0"`, caught and turned into `None`. -/
theorem c4_safe_int_seven_point_zero :
    safe_int (Value.vstr "7.0") = Except.ok none ∧
    safe_int (Value.vstr "7.0") ≠ Except.ok (some 7) := by decide

/-- C4 (amended): the CSV-script coercers `safe_convert_to_int`,
`safe_convert_to_float` and `safe_convert_to_str` satisfy all the reference
equations (`toInt("7.0") = 7` by parsing as float first, empty and
unparseable strings map to null, `toFloat("3.5") = 3.5`, `toStr` trims);
the racecards `safe_int` parses with `int()` directly and returns null on
`"7.0"`, while agreeing on the remaining equations. -/
theorem c4_coercion_equations_amended :
    safe_convert_to_int (Value.vstr "7.0") = Except.ok (some 7) ∧
    safe_int (Value.vstr "7.0") = Except.ok none ∧
    safe_convert_to_int (Value.vstr "") = Except.ok none ∧
    safe_int (Value.vstr "") = Except.ok none ∧
    safe_convert_to_int (Value.vstr "abc") = Except.ok none ∧
    safe_int (Value.vstr "abc") = Except.ok none ∧
    safe_convert_to_float (Value.vstr "3.5") =
      Except.ok (some (PyFloat.finite (Rat.divInt 7 2))) ∧
    safe_float (Value.vstr "3.5") =
      Except.ok (some (PyFloat.finite (Rat.divInt 7 2))) ∧
    (Rat.divInt 7 2 : ℚ) = 7 / 2 ∧
    safe_convert_to_str (Value.vstr "  x  ") = Except.ok (some "x") ∧
    safe_convert_to_str (Value.vstr "") = Except.ok none := by
  refine ⟨by decide, by decide, by decide, by decide, by decide, by decide,
          by decide, by decide, ?_, by decide, by decide⟩
  rw [Rat.divInt_eq_div]; norm_num

/-- C5 (code bug): the coercers are not total.  On the string `"inf"`,
`safe_convert_to_int` computes `int(float("inf"))`; `int` of an infinite
float raises `OverflowError`, which the `except (ValueError, TypeError)`
clause does not catch, so the call raises instead of returning `None` as the
docstring promises. -/
theorem c5_overflow_not_caught :
    safe_convert_to_int (Value.vstr "inf") = Except.error PyExc.overflowError := by
  decide

/-- C6: the row repair of `parse_csv_file` always yields exactly 39 fields:
a short row is right-padded with empty strings, an over-long row has all
fields from index 38 onward rejoined with the delimiter `,`, and the
resulting RawRecord maps the fields positionally onto the 39 expected
column names. -/
theorem c6_repair_row_exact_schema (row : List String) :
    (repair_row row).length = 39 ∧
    (row.length < 39 → repair_row row = row ++ List.replicate (39 - row.length) "") ∧
    (39 < row.length →
      repair_row row = row.take 38 ++ [String.intercalate "," (row.drop 38)]) ∧
    (row_dict (repair_row row)).map Prod.fst = expected_columns ∧
    (row_dict (repair_row row)).length = 39 :=
  ⟨repair_row_length row,
   fun h => repair_row_of_len_lt row h,
   fun h => repair_row_of_len_gt row h,
   row_dict_fst _,
   row_dict_length _⟩

/-- Witness for C6 at concrete rows of length 1 and 41. -/
theorem c6_repair_row_exact_schema_witness :
    repair_row ["x"] = ["x"] ++ List.replicate 38 "" ∧
    repair_row (List.replicate 41 "y") =
      (List.replicate 41 "y").take 38 ++
        [String.intercalate "," ((List.replicate 41 "y").drop 38)] ∧
    (repair_row []).length = 39 :=
  ⟨(c6_repair_row_exact_schema ["x"]).2.1 (by decide),
   (c6_repair_row_exact_schema _).2.2.1 (by simp),
   (c6_repair_row_exact_schema []).1⟩

/-- C7 (counterexample): in `upload_to_supabase.py` the move into the
processed folder targets the unchanged file name even when that name already
exists there, so an existing processed file is silently overwritten — no
timestamp is appended. -/
theorem c7_upload_script_overwrites :
    "results.csv" ∈ ["results.csv"] ∧
    process_all_dest "results.csv" = "results.csv" := by decide

/-- C7 (amended): only `move_file_to_processed` of
`batch_upload_to_supabase.py` disambiguates a colliding destination name by
inserting a timestamp between stem and extension; `process_all_csv_files` of
`upload_to_supabase.py` always moves to the plain destination name,
overwriting any existing processed file of the same name. -/
theorem c7_collision_rename_amended (processed : List String) (name ts : String) :
    (name ∈ processed →
      move_file_to_processed_dest processed name ts =
        path_stem name ++ "_" ++ ts ++ path_suffix name) ∧
    (name ∉ processed → move_file_to_processed_dest processed name ts = name) ∧
    process_all_dest name = name := by
  refine ⟨fun h => ?_, fun h => ?_, rfl⟩
  · simp [move_file_to_processed_dest, h]
  · simp [move_file_to_processed_dest, h]

/-- Witness for C7 at a colliding and a fresh name. -/
theorem c7_collision_rename_amended_witness :
    move_file_to_processed_dest ["a.csv"] "a.csv" "20240101_000000" =
      "a_20240101_000000.csv" ∧
    move_file_to_processed_dest [] "b.csv" "t" = "b.csv" := by
  constructor
  · have h := (c7_collision_rename_amended ["a.csv"] "a.csv" "20240101_000000").1
      (by decide)
    rw [h]; decide
  · exact (c7_collision_rename_amended [] "b.csv" "t").2.1 (by decide)

/-- C9: each JSON-blob column of `flatten_race_data` maps an absent key, a
null value, an empty array or an empty object to null, and a present
non-empty array or object to its `json.dumps` serialization. -/
theorem c9_blob_null_vs_json (d : List (String × JValue)) (k : String)
    (hk : k ∈ blob_json_fields) :
    (dictGet d k = none → blobCell d k = none) ∧
    (dictGet d k = some JValue.jnull → blobCell d k = none) ∧
    (dictGet d k = some (JValue.jarr []) → blobCell d k = none) ∧
    (dictGet d k = some (JValue.jobj []) → blobCell d k = none) ∧
    (∀ x xs, dictGet d k = some (JValue.jarr (x :: xs)) →
      blobCell d k = some (jsonDumps (JValue.jarr (x :: xs)))) ∧
    (∀ f fs, dictGet d k = some (JValue.jobj (f :: fs)) →
      blobCell d k = some (jsonDumps (JValue.jobj (f :: fs)))) := by
  refine ⟨fun h => ?_, fun h => ?_, fun h => ?_, fun h => ?_,
          fun x xs h => ?_, fun f fs h => ?_⟩ <;>
    simp [blobCell, h, jTruthy]

/-- Witness for C9: a non-empty medical array serializes, an empty quotes
array maps to null. -/
theorem c9_blob_null_vs_json_witness :
    blobCell [("medical", JValue.jarr [JValue.jstr "wind surgery"])] "medical" =
      some (jsonDumps (JValue.jarr [JValue.jstr "wind surgery"])) ∧
    blobCell [("quotes", JValue.jarr [])] "quotes" = none :=
  ⟨(c9_blob_null_vs_json [("medical", JValue.jarr [JValue.jstr "wind surgery"])]
      "medical" (by decide)).2.2.2.2.1 (JValue.jstr "wind surgery") [] rfl,
   (c9_blob_null_vs_json [("quotes", JValue.jarr [])] "quotes"
      (by decide)).2.2.1 rfl⟩

lemma toOption_filterMap_length {ε α : Type _} (l : List (Except ε α))
    (h : ∀ x ∈ l, (Except.toOption x).isSome) :
    (l.filterMap Except.toOption).length = l.length := by
  induction l with
  | nil => simp
  | cons x xs ih =>
    obtain ⟨a, ha⟩ := Option.isSome_iff_exists.mp (h x (by simp))
    simp [List.filterMap_cons, ha,
          ih fun y hy => h y (List.mem_cons_of_mem _ hy)]

lemma uploadStep_all_ok (resp : ℕ → StoreResponse) (bs : ℕ) (rows : List CsvRow)
    (acc : ℕ × ℕ) (i : ℕ)
    (hok : ∀ r ∈ rows, (Except.toOption (transform_row_for_supabase r)).isSome)
    (hne : ((rows.drop i).take bs).length ≠ 0) :
    uploadStep resp bs rows acc i =
      match resp (i / bs) with
      | StoreResponse.err => (acc.1, acc.2 + ((rows.drop i).take bs).length)
      | StoreResponse.data n =>
        if n == 0 then (acc.1, acc.2 + ((rows.drop i).take bs).length)
        else (acc.1 + n, acc.2) := by
  have hsub : ∀ r ∈ (rows.drop i).take bs,
      (Except.toOption (transform_row_for_supabase r)).isSome :=
    fun r hr => hok r (List.mem_of_mem_drop (List.mem_of_mem_take hr))
  have hfail : (((rows.drop i).take bs).map transform_row_for_supabase).filter
      (fun r => (Except.toOption r).isNone) = [] := by
    rw [List.filter_eq_nil_iff]
    intro r hr
    simp only [List.mem_map] at hr
    obtain ⟨a, ha, rfl⟩ := hr
    obtain ⟨b, hb⟩ := Option.isSome_iff_exists.mp (hsub a ha)
    simp [hb]
  have hlenT : ((((rows.drop i).take bs).map transform_row_for_supabase).filterMap
      Except.toOption).length = ((rows.drop i).take bs).length := by
    rw [toOption_filterMap_length]
    · exact List.length_map _ _
    · intro x hx
      simp only [List.mem_map] at hx
      obtain ⟨a, ha, rfl⟩ := hx
      exact hsub a ha
  have hempty : ((((rows.drop i).take bs).map transform_row_for_supabase).filterMap
      Except.toOption).isEmpty = false := by
    cases hE : ((((rows.drop i).take bs).map transform_row_for_supabase).filterMap
        Except.toOption).isEmpty
    · rfl
    · exfalso
      have h0 := List.isEmpty_iff.mp hE
      rw [h0] at hlenT
      exact hne (by simpa using hlenT.symm)
  unfold uploadStep
  simp only [hfail, List.length_nil, Nat.add_zero, hempty, Bool.false_eq_true,
             if_false]

lemma pyRange_one (n bs : ℕ) (h0 : 0 < n) (hle : n ≤ bs) : pyRange n bs = [0] := by
  unfold pyRange
  have h1 : (n + bs - 1) / bs = 1 := Nat.div_eq_of_lt_le (by omega) (by omega)
  rw [h1]
  simp [List.range_succ]

lemma process_file_aux (p : Except Unit (List CsvRow)) (resp : ℕ → StoreResponse)
    (c : Bool) (h : process_single_file p resp c = true) :
    ∃ rows, p = Except.ok rows ∧ rows ≠ [] ∧
      (uploadCounts rows 100 resp).2 = 0 := by
  cases p with
  | error e => simp [process_single_file] at h
  | ok rows =>
    by_cases he : rows.isEmpty
    · simp [process_single_file, he] at h
    · refine ⟨rows, rfl, fun hn => he (by simp [hn]), ?_⟩
      cases c
      · simp [process_single_file, he, upload_to_supabase] at h
      · simp [process_single_file, he, upload_to_supabase] at h
        exact h

lemma filter_not_length_zero {α : Type _} (l : List α) (p : α → Bool)
    (h : (l.filter fun x => !(p x)).length = 0) : ∀ x ∈ l, p x = true := by
  intro x hx
  have hfil := List.length_eq_zero.mp h
  have hb := List.filter_eq_nil_iff.mp hfil x hx
  revert hb
  cases p x <;> simp

/-- C1: in both CSV programs, a file is moved from the pending (unprocessed)
location to the processed location only if its parse succeeded with at least
one row and the upload loop finished with zero failed rows; on a parse
exception, a zero-row parse, or a nonzero failed count the per-file
processing returns `False` and the file stays where it is. -/
theorem c1_move_gated_on_success (p : Except Unit (List CsvRow))
    (resp : ℕ → StoreResponse) (client_ok : Bool) :
    (process_single_file p resp client_ok = true →
      ∃ rows, p = Except.ok rows ∧ rows ≠ [] ∧
        (uploadCounts rows 100 resp).2 = 0) ∧
    (process_one_file_upload_script p resp client_ok = true →
      ∃ rows, p = Except.ok rows ∧ rows ≠ [] ∧
        (uploadCounts rows 100 resp).2 = 0) :=
  ⟨fun h => process_file_aux p resp client_ok h,
   fun h => process_file_aux p resp client_ok (by exact h)⟩

/-- Witness for C1: a one-row file whose single batch is fully accepted. -/
theorem c1_move_gated_on_success_witness :
    process_single_file (Except.ok [([] : CsvRow)])
      (fun _ => StoreResponse.data 1) true = true ∧
    (∃ rows, (Except.ok [([] : CsvRow)] : Except Unit (List CsvRow)) =
        Except.ok rows ∧ rows ≠ [] ∧
      (uploadCounts rows 100 fun _ => StoreResponse.data 1).2 = 0) :=
  ⟨by decide,
   (c1_move_gated_on_success (Except.ok [[]]) (fun _ => StoreResponse.data 1)
      true).1 (by decide)⟩

/-- C2 (counterexample): a racecards run whose only file had 100 failed
uploads still exits 0 — `main` logs the warning branch and returns without
`sys.exit(1)`. -/
theorem c2_racecards_exits_zero_on_failure :
    (([(0, 100)] : List (ℕ × ℕ)).map Prod.snd).sum = 100 ∧
    racecards_main_exit [(0, 100)] = 0 := by decide

/-- C2 (amended): the two CSV programs exit 0 only if every discovered file
was processed fully successfully (upload and archival move); the racecards
program exits 0 after any completed run regardless of failed uploads
(nonzero exits happen only on usage error, an invalid path, or a fatal
exception). -/
theorem c2_exit_codes_amended (file_results : List (Bool × Bool))
    (per_file : List Bool) (outcomes : List (ℕ × ℕ)) :
    (batch_main_exit file_results = 0 →
      ∀ r ∈ file_results, r.1 = true ∧ r.2 = true) ∧
    (upload_main_exit per_file false = 0 → ∀ b ∈ per_file, b = true) ∧
    racecards_main_exit outcomes = 0 := by
  refine ⟨?_, ?_, ?_⟩
  · intro h r hr
    unfold batch_main_exit at h
    by_cases hemp : file_results.isEmpty
    · rw [List.isEmpty_iff] at hemp
      subst hemp
      simp at hr
    · rw [if_neg hemp] at h
      rcases hN : (file_results.filter fun x => !(x.1 && x.2)).length with _ | m
      · have hb := filter_not_length_zero file_results (fun x => x.1 && x.2) hN r hr
        simpa using hb
      · rw [hN] at h
        simp at h
  · intro h b hb
    unfold upload_main_exit process_all_csv_files_result at h
    by_cases hemp : per_file.isEmpty
    · rw [List.isEmpty_iff] at hemp
      subst hemp
      simp at hb
    · rcases hN : (per_file.filter fun x => !x).length with _ | m
      · have hb2 := filter_not_length_zero per_file (fun x => x) hN b hb
        simpa using hb2
      · exfalso
        rw [if_neg (by simp), if_neg hemp, hN] at h
        simp at h
  · simp [racecards_main_exit]

/-- Witness for C2 at concrete run outcomes. -/
theorem c2_exit_codes_amended_witness :
    (∀ r ∈ [((true : Bool), (true : Bool))], r.1 = true ∧ r.2 = true) ∧
    (∀ b ∈ [true], b = true) ∧
    racecards_main_exit [(5, 0)] = 0 :=
  ⟨(c2_exit_codes_amended [(true, true)] [true] [(5, 0)]).1 (by decide),
   (c2_exit_codes_amended [(true, true)] [true] [(5, 0)]).2.1 (by decide),
   (c2_exit_codes_amended [(true, true)] [true] [(5, 0)]).2.2⟩

/-- C3 (counterexample): a batch of 2 rows that receives a non-error
response whose `result.data` has only 1 row is counted by the CSV scripts as
1 success and 0 failures — no submitted row is counted failed — and the file
is then reported fully successful; the racecards script even counts all 2
submitted rows as successful. -/
theorem c3_partial_response_counted_success :
    uploadCounts [[], []] 100 (fun _ => StoreResponse.data 1) = (1, 0) ∧
    upload_to_supabase [[], []] 100 (fun _ => StoreResponse.data 1) true = true ∧
    racecards_upload_counts [(), ()] (fun _ => StoreResponse.data 1) = (2, 0) := by
  decide

/-- C3 (amended): only a submission exception or a non-error response whose
`result.data` is empty causes all submitted rows of the call to be counted
failed.  On a non-error, non-empty response the two CSV scripts add
`len(result.data)` to the success count, the racecards script adds
`len(batch)` — the full submitted count — and in all three programs no row
of the call is counted failed, so the file is reported fully successful even
when fewer rows were accepted than submitted. -/
theorem c3_partial_failure_accounting_amended {α : Type} (rows : List CsvRow)
    (bs : ℕ) (resp : ℕ → StoreResponse) (rcdata : List α)
    (rcresp : ℕ → StoreResponse) (h0 : rows ≠ []) (hle : rows.length ≤ bs)
    (hok : ∀ r ∈ rows, (Except.toOption (transform_row_for_supabase r)).isSome)
    (hrc0 : rcdata ≠ []) (hrcle : rcdata.length ≤ 100) :
    uploadCounts rows bs resp =
      (match resp 0 with
       | StoreResponse.err => (0, rows.length)
       | StoreResponse.data n =>
         if n == 0 then (0, rows.length) else (n, 0)) ∧
    racecards_upload_counts rcdata rcresp =
      (match rcresp 0 with
       | StoreResponse.err => (0, rcdata.length)
       | StoreResponse.data n =>
         if n == 0 then (0, rcdata.length) else (rcdata.length, 0)) ∧
    (∀ n, resp 0 = StoreResponse.data n → n ≠ 0 →
      upload_to_supabase rows bs resp true = true) := by
  have hlen0 : 0 < rows.length := List.length_pos.mpr h0
  have hbatch : (rows.drop 0).take bs = rows := by
    rw [List.drop_zero]
    exact List.take_of_length_le hle
  have hcounts : uploadCounts rows bs resp =
      match resp 0 with
      | StoreResponse.err => (0, rows.length)
      | StoreResponse.data n =>
        if n == 0 then (0, rows.length) else (n, 0) := by
    unfold uploadCounts
    rw [pyRange_one rows.length bs hlen0 hle, List.foldl_cons, List.foldl_nil]
    rw [uploadStep_all_ok resp bs rows (0, 0) 0 hok (by rw [hbatch]; omega)]
    rw [Nat.zero_div, hbatch]
    cases resp 0 with
    | err => simp
    | data n => cases hn : (n == 0) <;> simp [hn]
  have hrcounts : racecards_upload_counts rcdata rcresp =
      match rcresp 0 with
      | StoreResponse.err => (0, rcdata.length)
      | StoreResponse.data n =>
        if n == 0 then (0, rcdata.length) else (rcdata.length, 0) := by
    have hl0 : 0 < rcdata.length := List.length_pos.mpr hrc0
    have hb : (rcdata.drop 0).take 100 = rcdata := by
      rw [List.drop_zero]
      exact List.take_of_length_le hrcle
    unfold racecards_upload_counts
    rw [pyRange_one rcdata.length 100 hl0 hrcle, List.foldl_cons,
        List.foldl_nil]
    simp only [Nat.zero_div, hb]
    cases rcresp 0 with
    | err => simp
    | data n => cases hn : (n == 0) <;> simp [hn]
  refine ⟨hcounts, hrcounts, fun n hn hn0 => ?_⟩
  unfold upload_to_supabase
  rw [if_pos rfl, hcounts, hn]
  simp [hn0]

/-- Witness for C3: the single-batch accounting applied to a concrete
two-row file with a partial (1-of-2) acceptance, in the CSV accounting and
in the racecards accounting. -/
theorem c3_partial_failure_accounting_amended_witness :
    (∀ r ∈ [([] : CsvRow), []],
      (Except.toOption (transform_row_for_supabase r)).isSome) ∧
    uploadCounts [[], []] 100 (fun _ => StoreResponse.data 1) = (1, 0) ∧
    racecards_upload_counts [(), ()] (fun _ => StoreResponse.data 1) = (2, 0) ∧
    upload_to_supabase [[], []] 100 (fun _ => StoreResponse.data 1) true = true := by
  have H := c3_partial_failure_accounting_amended [[], []] 100
    (fun _ => StoreResponse.data 1) [(), ()] (fun _ => StoreResponse.data 1)
    (by decide) (by decide) (by decide) (by decide) (by decide)
  exact ⟨by decide, H.1, H.2.1, H.2.2 1 rfl (by decide)⟩

/-- C8: a 250-row file with batch size 100 is partitioned into exactly the
three consecutive slices of sizes 100, 100 and 50; when batch 2 raises and
batches 1 and 3 are fully accepted, the aggregate outcome is 150 successful
and 100 failed rows and `upload_to_supabase` returns `False`. -/
theorem c8_three_batch_scenario (rows : List CsvRow) (hlen : rows.length = 250)
    (hok : ∀ r ∈ rows, (Except.toOption (transform_row_for_supabase r)).isSome) :
    (pyBatches rows 100).map List.length = [100, 100, 50] ∧
    uploadCounts rows 100 respC8 = (150, 100) ∧
    upload_to_supabase rows 100 respC8 true = false := by
  have hrange : pyRange 250 100 = [0, 100, 200] := by decide
  have hl0 : ((rows.drop 0).take 100).length = 100 := by
    rw [List.length_take, List.length_drop, hlen]; decide
  have hl1 : ((rows.drop 100).take 100).length = 100 := by
    rw [List.length_take, List.length_drop, hlen]; decide
  have hl2 : ((rows.drop 200).take 100).length = 50 := by
    rw [List.length_take, List.length_drop, hlen]; decide
  have s0 : uploadStep respC8 100 rows (0, 0) 0 = (100, 0) := by
    rw [uploadStep_all_ok respC8 100 rows (0, 0) 0 hok (by rw [hl0]; decide)]
    norm_num [respC8]
  have s1 : uploadStep respC8 100 rows (100, 0) 100 = (100, 100) := by
    rw [uploadStep_all_ok respC8 100 rows (100, 0) 100 hok (by rw [hl1]; decide)]
    norm_num [respC8, hl1]
  have s2 : uploadStep respC8 100 rows (100, 100) 200 = (150, 100) := by
    rw [uploadStep_all_ok respC8 100 rows (100, 100) 200 hok (by rw [hl2]; decide)]
    norm_num [respC8, hl2]
  have hcounts : uploadCounts rows 100 respC8 = (150, 100) := by
    unfold uploadCounts
    rw [hlen, hrange, List.foldl_cons, List.foldl_cons, List.foldl_cons,
        List.foldl_nil, s0, s1, s2]
  refine ⟨?_, hcounts, ?_⟩
  · unfold pyBatches
    rw [hlen, hrange]
    simp only [List.map_cons, List.map_nil]
    rw [hl0, hl1, hl2]
  · simp [upload_to_supabase, hcounts]

/-- Witness for C8 at 250 concrete rows. -/
theorem c8_three_batch_scenario_witness :
    (List.replicate 250 ([] : CsvRow)).length = 250 ∧
    ((pyBatches (List.replicate 250 ([] : CsvRow)) 100).map List.length =
        [100, 100, 50] ∧
      uploadCounts (List.replicate 250 ([] : CsvRow)) 100 respC8 = (150, 100) ∧
      upload_to_supabase (List.replicate 250 ([] : CsvRow)) 100 respC8 true =
        false) :=
  ⟨List.length_replicate 250 ([] : CsvRow),
   c8_three_batch_scenario _ (List.length_replicate 250 ([] : CsvRow))
     (fun r hr => by rw [List.eq_of_mem_replicate hr]; decide)⟩

lemma safe_convert_to_str_ok (v : Value) :
    ∃ o, safe_convert_to_str v = Except.ok o := by
  cases h : isNullLikePd v
  · exact ⟨some (pyStrip (pyStrOfValue v)), by simp [safe_convert_to_str, h]⟩
  · exact ⟨none, by simp [safe_convert_to_str, h]⟩

lemma safe_convert_to_float_ok (v : Value) (hv : nonInfValue v = true) :
    ∃ o, safe_convert_to_float v = Except.ok o := by
  cases v with
  | vnone => exact ⟨none, rfl⟩
  | vint n =>
    cases hO : overflowsDouble ((n : ℚ))
    · exact ⟨some (PyFloat.finite ((n : ℚ))),
        by simp [safe_convert_to_float, isNullLikePd, pyFloatOfValue, hO]⟩
    · simp [nonInfValue, hO] at hv
  | vfloat f => cases f <;> exact ⟨_, rfl⟩
  | vstr s =>
    cases hs : (s == "")
    · cases hp : parsePyFloat s with
      | none =>
        exact ⟨none, by simp [safe_convert_to_float, isNullLikePd, hs,
          pyFloatOfValue, hp]⟩
      | some f =>
        exact ⟨some f, by simp [safe_convert_to_float, isNullLikePd, hs,
          pyFloatOfValue, hp]⟩
    · exact ⟨none, by simp [safe_convert_to_float, isNullLikePd, hs]⟩

lemma safe_convert_to_int_ok (v : Value) (hv : nonInfValue v = true) :
    ∃ o, safe_convert_to_int v = Except.ok o := by
  cases v with
  | vnone => exact ⟨none, rfl⟩
  | vint n =>
    cases hO : overflowsDouble ((n : ℚ))
    · exact ⟨some (truncRat ((n : ℚ))),
        by simp [safe_convert_to_int, isNullLikePd, pyFloatOfValue, hO,
          pyIntOfFloat]⟩
    · simp [nonInfValue, hO] at hv
  | vfloat f =>
    cases f with
    | finite q => exact ⟨some (truncRat q), rfl⟩
    | nan => exact ⟨none, rfl⟩
    | inf => simp [nonInfValue] at hv
    | ninf => simp [nonInfValue] at hv
  | vstr s =>
    cases hs : (s == "")
    · cases hp : parsePyFloat s with
      | none =>
        exact ⟨none, by simp [safe_convert_to_int, isNullLikePd, hs,
          pyFloatOfValue, hp]⟩
      | some f =>
        cases f with
        | finite q =>
          exact ⟨some (truncRat q), by simp [safe_convert_to_int, isNullLikePd,
            hs, pyFloatOfValue, hp, pyIntOfFloat]⟩
        | nan =>
          exact ⟨none, by simp [safe_convert_to_int, isNullLikePd, hs,
            pyFloatOfValue, hp, pyIntOfFloat]⟩
        | inf => simp [nonInfValue, hp] at hv
        | ninf => simp [nonInfValue, hp] at hv
    · exact ⟨none, by simp [safe_convert_to_int, isNullLikePd, hs]⟩

lemma convertField_ok (k : CKind) (v : Value) (hv : nonInfValue v = true) :
    ∃ r, convertField k v = Except.ok r := by
  cases k with
  | cstr =>
    obtain ⟨o, ho⟩ := safe_convert_to_str_ok v
    exact ⟨o.map TypedVal.ts, by simp [convertField, ho, Except.map]⟩
  | cint =>
    obtain ⟨o, ho⟩ := safe_convert_to_int_ok v hv
    exact ⟨o.map TypedVal.ti, by simp [convertField, ho, Except.map]⟩
  | cfloat =>
    obtain ⟨o, ho⟩ := safe_convert_to_float_ok v hv
    exact ⟨o.map TypedVal.tf, by simp [convertField, ho, Except.map]⟩

lemma convertField_vnone (k : CKind) :
    convertField k Value.vnone = Except.ok none := by
  cases k <;> rfl

lemma pyGet_nonInf (row : List (String × Value)) (k : String)
    (h : ∀ p ∈ row, nonInfValue p.2 = true) : nonInfValue (pyGet row k) = true := by
  unfold pyGet
  cases hf : row.find? fun p => p.1 == k with
  | none => rfl
  | some p => exact h p (List.mem_of_find?_eq_some hf)

lemma buildRowCells_spec (spec : List (String × String × CKind))
    (row : List (String × Value))
    (h : ∀ e ∈ spec, ∃ r, convertField e.2.2 (pyGet row e.2.1) = Except.ok r) :
    ∃ out,
      buildRowCells spec row = Except.ok out ∧
      out.map Prod.fst = spec.map (fun e => e.1) ∧
      ∀ e ∈ spec, pyGet row e.2.1 = Value.vnone →
        (e.1, (none : Option TypedVal)) ∈ out := by
  induction spec with
  | nil => exact ⟨[], rfl, rfl, by simp⟩
  | cons e es ih =>
    obtain ⟨r, hr⟩ := h e (List.mem_cons_self e es)
    obtain ⟨out, hout, hfst, hnull⟩ :=
      ih fun x hx => h x (List.mem_cons_of_mem _ hx)
    refine ⟨(e.1, r) :: out, ?_, ?_, ?_⟩
    · rw [buildRowCells, hr, hout]
      rfl
    · simp [hfst]
    · intro x hx hnone
      rcases List.mem_cons.mp hx with rfl | hx'
      · have h1 : (Except.ok r : Except PyExc (Option TypedVal)) =
            Except.ok none := by
          rw [← hr, hnone, convertField_vnone]
        have h2 : r = none := Except.ok.inj h1
        subst h2
        exact List.mem_cons_self _ _
      · exact List.mem_cons_of_mem _ (hnull x hx' hnone)

/-- C10 (counterexample): on a mapping whose only key is `dist_m` with value `"inf"` the transform
raises: the `dist_m` cell computes `int(float("inf"))`, whose
`OverflowError` is not caught by the coercer and propagates out of
`transform_row_for_supabase`. -/
theorem c10_raises_on_inf_cell :
    transform_row_for_supabase [("dist_m", Value.vstr "inf")] =
      Except.error PyExc.overflowError := by decide

/-- C10 (amended): for every input mapping whose present values are scalars
other than an infinite float, a string that `float()` turns into an infinity
(an infinity literal or an overflowing numeral such as `1e400`), or an int
too large to convert to a double — every CSV-parsed row except such
numerals qualifies — `transform_row_for_supabase` returns without raising a
dict with exactly the 39 canonical column names in schema order, with `or`
renamed to `or_rating`, and every column whose source key is absent from the
input holds null. -/
theorem c10_transform_total_and_canonical (row : List (String × Value))
    (h : ∀ p ∈ row, nonInfValue p.2 = true) :
    ∃ out, transform_row_for_supabase row = Except.ok out ∧
      out.map Prod.fst = column_spec.map (fun e => e.1) ∧
      (column_spec.map fun e => e.1).length = 39 ∧
      "or_rating" ∈ column_spec.map (fun e => e.1) ∧
      "or" ∉ column_spec.map (fun e => e.1) ∧
      ∀ e ∈ column_spec, (row.find? fun p => p.1 == e.2.1) = none →
        (e.1, (none : Option TypedVal)) ∈ out := by
  obtain ⟨out, hout, hfst, hnull⟩ := buildRowCells_spec column_spec row
    (fun e _ => convertField_ok e.2.2 _ (pyGet_nonInf row e.2.1 h))
  refine ⟨out, hout, hfst, by decide, by decide, by decide, ?_⟩
  intro e he hf
  refine hnull e he ?_
  unfold pyGet
  rw [hf]

/-- Witness for C10: a mapping holding a single string field. -/
theorem c10_transform_total_and_canonical_witness :
    (∀ p ∈ [(("horse" : String), Value.vstr "Frankel")],
      nonInfValue p.2 = true) ∧
    (∃ out,
      transform_row_for_supabase [("horse", Value.vstr "Frankel")] =
        Except.ok out ∧
      out.map Prod.fst = column_spec.map (fun e => e.1) ∧
      (column_spec.map fun e => e.1).length = 39 ∧
      "or_rating" ∈ column_spec.map (fun e => e.1) ∧
      "or" ∉ column_spec.map (fun e => e.1) ∧
      ∀ e ∈ column_spec,
        ([(("horse" : String), Value.vstr "Frankel")].find?
          fun p => p.1 == e.2.1) = none →
        (e.1, (none : Option TypedVal)) ∈ out) :=
  ⟨by decide,
   c10_transform_total_and_canonical [("horse", Value.vstr "Frankel")]
     (by decide)⟩
